import Mathlib

/-!
Verification development for the `ctc-asr` speech-recognition utilities.

The definitions below are a shallow embedding of the Python sources
`asr/util/tf_contrib.py` and `asr/util/storage.py`.  Tensor-level
operations are modelled at the shape level (the claims under study are
about shapes, sequence lengths, configuration checking, collection
bookkeeping and control flow, none of which depend on tensor element
values).  Machine floats appearing in dropout bookkeeping are modelled
as rationals; the clamp arithmetic involved is exact, so no rounding is
lost.  Fallible Python code (raised exceptions) is modelled with
`Except`.
-/

namespace TfContrib

/-- Shape of a rank-4 tensor `[batch, time, frequency, channels]`
(the spectrogram layout consumed by `conv_layers`). -/
structure Shape4 where
  batch : Nat
  time : Nat
  freq : Nat
  channels : Nat
deriving Repr, DecidableEq

/-- Output size of one spatial dimension of `tf.layers.conv2d` with
`padding='SAME'`: `ceil(n / stride)` (independent of the kernel size). -/
def convSameSize (n stride : Nat) : Nat := (n + stride - 1) / stride

/-- Shape transform of one convolution layer of `conv_layers`:
`tf.layers.conv2d(..., filters=_filter, strides=stride, padding='SAME')`.
The subsequent `tf.minimum` clip and `tf.layers.dropout` are
elementwise and leave the shape unchanged. -/
def convLayerShape (filter : Nat) (stride : Nat × Nat) (s : Shape4) : Shape4 :=
  { batch := s.batch
    time := convSameSize s.time stride.1
    freq := convSameSize s.freq stride.2
    channels := filter }

/-- Shape after the `for tmp in zip(filters, kernel_sizes, strides)` loop of
`conv_layers` (the kernel sizes do not affect SAME-padding shapes). -/
def convStackShape (s : Shape4) (filters : List Nat) (strides : List (Nat × Nat)) : Shape4 :=
  (filters.zip strides).foldl (fun acc fs => convLayerShape fs.1 fs.2 acc) s

/-- Result of `conv_layers`: the reshaped output tensor
`[batch, -1, 10 * filters[-1]]` described by its three dimensions, plus the
recomputed sequence-length vector
`tf.tile([tf.shape(output)[1]], [tf.shape(output)[0]])`. -/
structure ConvResult where
  outBatch : Nat
  outTime : Nat
  outFeat : Nat
  seq_length : List Nat
deriving Repr, DecidableEq

/-- Error message of the `ValueError` raised by the length precondition of
`conv_layers`. -/
def convMismatchMsg : String :=
  "conv_layers(): Arguments filters, kernel_size, and strides must contain the same number of elements."

/-- Error message of the `IndexError` raised by `filters[-1]` on an empty tuple. -/
def emptyTupleMsg : String := "IndexError: tuple index out of range"

/-- Shallow embedding of `conv_layers` (shape level).
Mirrors, in order: the `len(filters) == len(kernel_sizes) == len(strides)`
check raising `ValueError`; the convolution loop; the
`tf.reshape(output, [tf.shape(output)[0], -1, 10 * filters[-1]])`
(where `filters[-1]` raises `IndexError` on an empty tuple, and the `-1`
dimension is the remaining element count divided by the two fixed
dimensions); and finally
`seq_length = tf.tile([tf.shape(output)[1]], [tf.shape(output)[0]])`. -/
def conv_layers (s : Shape4) (filters : List Nat)
    (kernel_sizes strides : List (Nat × Nat)) : Except String ConvResult :=
  if filters.length = kernel_sizes.length ∧ kernel_sizes.length = strides.length then
    let fin := convStackShape s filters strides
    match filters.getLast? with
    | none => Except.error emptyTupleMsg
    | some lastFilter =>
      let featDim := 10 * lastFilter
      let newTime := fin.time * fin.freq * fin.channels / featDim
      Except.ok { outBatch := fin.batch
                  outTime := newTime
                  outFeat := featDim
                  seq_length := List.replicate fin.batch newTime }
  else
    Except.error convMismatchMsg

example :
    conv_layers ⟨2, 8, 80, 1⟩ [32, 32, 96]
      [(11, 41), (11, 21), (11, 21)] [(2, 2), (1, 2), (1, 2)] =
    Except.ok ⟨2, 4, 960, [4, 4]⟩ := rfl

example :
    conv_layers ⟨1, 4, 40, 1⟩ [32, 32, 96]
      [(11, 41), (11, 21), (11, 21)] [(2, 2), (1, 2), (1, 2)] =
    Except.ok ⟨1, 1, 960, [1]⟩ := rfl

example : convStackShape ⟨1, 4, 40, 1⟩ [32, 32, 96] [(2, 2), (1, 2), (1, 2)] =
    ⟨1, 2, 5, 96⟩ := by decide

/-- Per-variable Adam optimizer state read inside
`AdamOptimizerLogger._apply_dense`: the `m` and `v` slots, the two beta
accumulators, the learning-rate tensor and the epsilon tensor.
Scalars stand for the (elementwise) tensor values. -/
structure AdamSlots where
  m : ℚ
  v : ℚ
  beta1_power : ℚ
  beta2_power : ℚ
  lr_t : ℚ
  epsilon_t : ℚ

/-- Shallow embedding of `AdamOptimizerLogger._apply_dense`.
`sqrt` abstracts the framework square root used by `v_hat ** 0.5` and
`tf.sqrt`; `baseApplyDense` abstracts the inherited
`tf.train.AdamOptimizer._apply_dense` (framework code, not part of this
repository).  The method computes `m_hat`, `v_hat`, `step` and
`current_lr`, emits them through `tf.summary` (modelled as the returned
log list), and returns `super()._apply_dense(grad, var)` unchanged. -/
def adamLoggerApplyDense (sqrt : ℚ → ℚ)
    (baseApplyDense : AdamSlots → ℚ → ℚ → ℚ)
    (st : AdamSlots) (grad var : ℚ) : ℚ × List (String × ℚ) :=
  let m_hat := st.m / (1 - st.beta1_power)
  let v_hat := st.v / (1 - st.beta2_power)
  let step := m_hat / (sqrt v_hat + st.epsilon_t)
  let current_lr := st.lr_t * sqrt (1 - st.beta2_power) / (1 - st.beta1_power)
  (baseApplyDense st grad var, [("step", step), ("estimated_lr", current_lr)])

/-- The inner cell built by `create_cell`:
`tf.nn.rnn_cell.BasicRNNCell(num_units=num_units, activation=tf.nn.tanh)`. -/
structure BasicRNNCell where
  num_units : Nat
deriving Repr, DecidableEq

/-- The value returned by `create_cell`:
`tf.nn.rnn_cell.DropoutWrapper(cell, input_keep_prob=keep_prob,
output_keep_prob=keep_prob, seed=FLAGS.random_seed)`. -/
structure DropoutWrapper where
  cell : BasicRNNCell
  input_keep_prob : ℚ
  output_keep_prob : ℚ
  seed : Nat
deriving Repr, DecidableEq

/-- Shallow embedding of `create_cell`.  `random_seed` stands for the
ambient `FLAGS.random_seed`. -/
def create_cell (random_seed : Nat) (num_units : Nat) (keep_prob : ℚ := 1) :
    DropoutWrapper :=
  { cell := { num_units := num_units }
    input_keep_prob := keep_prob
    output_keep_prob := keep_prob
    seed := random_seed }

/-- Shallow embedding of `bidirectional_cells`:
`keep_prob = min(1.0, max(0.0, 1.0 - dropout))`, then one list
comprehension over `range(num_layers)` for the forward cells and one for
the backward cells. -/
def bidirectional_cells (random_seed : Nat) (num_units num_layers : Nat)
    (dropout : ℚ := 1) : List DropoutWrapper × List DropoutWrapper :=
  let keep_prob := min 1 (max 0 (1 - dropout))
  ((List.range num_layers).map fun _ => create_cell random_seed num_units keep_prob,
   (List.range num_layers).map fun _ => create_cell random_seed num_units keep_prob)

example : bidirectional_cells 42 8 2 =
    ([⟨⟨8⟩, 0, 0, 42⟩, ⟨⟨8⟩, 0, 0, 42⟩], [⟨⟨8⟩, 0, 0, 42⟩, ⟨⟨8⟩, 0, 0, 42⟩]) := by
  norm_num [bidirectional_cells, create_cell, List.range_succ]

/-- `tf.nn.l2_loss(t)`: `sum(t ** 2) / 2`, over the flattened entries of the
variable. -/
def l2_loss (t : List ℚ) : ℚ := (t.map fun x => x * x).sum / 2

/-- Shallow embedding of `variable_with_weight_decay`.  Variable creation
(`variable_on_cpu` with a truncated-normal initializer) is abstracted by
taking the created variable entries `var` as input; the process-wide
`'losses'` collection is passed explicitly.  Returns the variable and the
updated collection: `tf.add_to_collection('losses', ...)` appends
`tf.multiply(tf.nn.l2_loss(var), weight_decay)` when `weight_decay` is not
`None`, and the collection is untouched otherwise. -/
def variable_with_weight_decay (losses : List ℚ) (var : List ℚ)
    (weight_decay : Option ℚ) : List ℚ × List ℚ :=
  match weight_decay with
  | some wd => (var, losses ++ [l2_loss var * wd])
  | none => (var, losses)

end TfContrib

namespace Storage

/-- Shallow embedding of `git_branch`.  `repo.active_branch` raises
`TypeError` on a detached HEAD; this is modelled by `active_branch = none`.
The `except TypeError` handler substitutes the sentinel string. -/
def git_branch (active_branch : Option String) : String :=
  match active_branch with
  | some name => name
  | none => "DETACHED HEAD"

/-- Stable insertion of a `(name, committed_datetime)` tag into an
ascending-by-date list (helper for the `sorted(..., key=...)` call of
`git_latest_tag`). -/
def insertTag (t : String × Nat) : List (String × Nat) → List (String × Nat)
  | [] => [t]
  | u :: rest => if u.2 ≤ t.2 then u :: insertTag t rest else t :: u :: rest

/-- `sorted(repo.tags, key=lambda t: t.commit.committed_datetime)`:
stable ascending sort by commit date. -/
def sortTags (tags : List (String × Nat)) : List (String × Nat) :=
  tags.foldl (fun acc t => insertTag t acc) []

/-- Error message of the `IndexError` raised by `tags[-1]` on an empty list. -/
def emptyListMsg : String := "IndexError: list index out of range"

/-- Shallow embedding of `git_latest_tag`.  Tags are pairs of name and
commit date.  After sorting, `tags[-1].name` is taken; on a repository
with no tags this is `[][-1]`, which raises `IndexError`. -/
def git_latest_tag (tags : List (String × Nat)) : Except String String :=
  match (sortTags tags).getLast? with
  | some t => Except.ok t.1
  | none => Except.error emptyListMsg

example : git_latest_tag [("v1", 5), ("v3", 9), ("v2", 7)] = Except.ok "v3" := rfl
example : git_latest_tag [] = Except.error emptyListMsg := rfl

/-- Observable events of the storage helpers: a removal attempt (indexed by
the loop counter), the warning print after a failed attempt, and a
`time.sleep` of the given number of seconds. -/
inductive Ev where
  | attempt (i : Nat)
  | warn (i : Nat)
  | sleep (secs : Nat)
deriving Repr, DecidableEq

/-- The `for i in range(5)` retry loop of `delete_file_if_exists`, run over
the remaining loop indices.  `fails i = some e` means the `os.remove` of
attempt `i` raises exception `e`; `none` means it succeeds (then `break`).
After a failure the code prints a warning, raises
`RuntimeError(path) from exception` when `i == 4`, and otherwise sleeps one
second before the next iteration.  The error value carries the
`RuntimeError` argument and the chained cause. -/
def removeRetry (path : String) (fails : Nat → Option String) :
    List Nat → List Ev × Except (String × String) Unit
  | [] => ([], Except.ok ())
  | i :: rest =>
    match fails i with
    | none => ([Ev.attempt i], Except.ok ())
    | some e =>
      if i == 4 then ([Ev.attempt i, Ev.warn i], Except.error (path, e))
      else
        let p := removeRetry path fails rest
        (Ev.attempt i :: Ev.warn i :: Ev.sleep 1 :: p.1, p.2)

/-- Shallow embedding of `delete_file_if_exists`.  The guard is
`os.path.exists(path) and os.path.isfile(path)`; when it holds the retry
loop `for i in range(5)` runs.  Returns the event trace and the outcome
(`Except.error` models the escaping `RuntimeError`). -/
def delete_file_if_exists (pathExists pathIsFile : Bool) (path : String)
    (fails : Nat → Option String) : List Ev × Except (String × String) Unit :=
  if pathExists && pathIsFile then removeRetry path fails (List.range 5)
  else ([], Except.ok ())

/-- Shallow embedding of `delete_directory_if_exists`.  The guard is
`os.path.exists(path) and os.path.isdir(path)`; `rmtree` is the outcome of
the single `shutil.rmtree(path)` call, whose `OSError` is re-raised
immediately (`except OSError as exception: raise exception`). -/
def delete_directory_if_exists (pathExists pathIsDir : Bool)
    (rmtree : Except String Unit) : List Ev × Except String Unit :=
  if pathExists && pathIsDir then
    match rmtree with
    | Except.ok _ => ([Ev.attempt 0], Except.ok ())
    | Except.error e => ([Ev.attempt 0], Except.error e)
  else ([], Except.ok ())

example :
    delete_file_if_exists true true "f" (fun _ => some "OSError") =
    ([Ev.attempt 0, Ev.warn 0, Ev.sleep 1, Ev.attempt 1, Ev.warn 1, Ev.sleep 1,
      Ev.attempt 2, Ev.warn 2, Ev.sleep 1, Ev.attempt 3, Ev.warn 3, Ev.sleep 1,
      Ev.attempt 4, Ev.warn 4], Except.error ("f", "OSError")) := rfl

example :
    delete_file_if_exists true true "f" (fun i => if i < 2 then some "x" else none) =
    ([Ev.attempt 0, Ev.warn 0, Ev.sleep 1, Ev.attempt 1, Ev.warn 1, Ev.sleep 1,
      Ev.attempt 2], Except.ok ()) := rfl

end Storage

namespace TfContrib

/-- The convolution loop never changes the batch dimension. -/
theorem foldl_convLayerShape_batch (l : List (Nat × (Nat × Nat))) (s : Shape4) :
    (l.foldl (fun acc fs => convLayerShape fs.1 fs.2 acc) s).batch = s.batch := by
  induction l generalizing s with
  | nil => rfl
  | cons hd tl ih => simpa [convLayerShape] using ih (convLayerShape hd.1 hd.2 s)

/-- The batch dimension survives the whole convolution stack. -/
theorem convStackShape_batch (s : Shape4) (filters : List Nat)
    (strides : List (Nat × Nat)) :
    (convStackShape s filters strides).batch = s.batch :=
  foldl_convLayerShape_batch _ _

/-- On a well-formed configuration, `conv_layers` returns the explicit
reshaped result. -/
theorem conv_layers_eq_ok (s : Shape4) (filters : List Nat)
    (ks strides : List (Nat × Nat)) (f : Nat)
    (hlen : filters.length = ks.length ∧ ks.length = strides.length)
    (hf : filters.getLast? = some f) :
    conv_layers s filters ks strides =
      Except.ok
        { outBatch := (convStackShape s filters strides).batch
          outTime := (convStackShape s filters strides).time *
            (convStackShape s filters strides).freq *
            (convStackShape s filters strides).channels / (10 * f)
          outFeat := 10 * f
          seq_length := List.replicate (convStackShape s filters strides).batch
            ((convStackShape s filters strides).time *
              (convStackShape s filters strides).freq *
              (convStackShape s filters strides).channels / (10 * f)) } := by
  simp only [conv_layers, if_pos hlen, hf]

/-- C1: for every input spectrogram batch and every valid configuration, the
sequence-length vector returned by `conv_layers` has one entry per batch
element, every entry is identical, and each entry equals the
time-dimension size (axis 1) of the reshaped output tensor.  The input
tensor shape is the only input: the true per-example lengths are not even
an argument of `conv_layers`, so batches with differing true lengths get
this same constant vector. -/
theorem conv_layers_seq_length_constant (s : Shape4) (filters : List Nat)
    (ks strides : List (Nat × Nat))
    (hlen : filters.length = ks.length ∧ ks.length = strides.length)
    (hne : filters ≠ []) :
    ∃ r, conv_layers s filters ks strides = Except.ok r ∧
      r.seq_length.length = s.batch ∧
      (∀ x ∈ r.seq_length, x = r.outTime) ∧
      r.seq_length = List.replicate s.batch r.outTime := by
  obtain ⟨f, hf⟩ : ∃ f, filters.getLast? = some f := by
    cases hfl : filters.getLast? with
    | none => exact absurd (List.getLast?_eq_none_iff.mp hfl) hne
    | some f => exact ⟨f, rfl⟩
  refine ⟨_, conv_layers_eq_ok s filters ks strides f hlen hf, ?_, ?_, ?_⟩
  · simp [convStackShape_batch]
  · intro x hx
    exact (List.eq_of_mem_replicate hx)
  · simp [convStackShape_batch]

/-- C1 witness: the default three-layer configuration on a batch of two
spectrograms of shape `[2, 8, 80, 1]`. -/
theorem conv_layers_seq_length_constant_witness :
    ∃ r, conv_layers ⟨2, 8, 80, 1⟩ [32, 32, 96]
        [(11, 41), (11, 21), (11, 21)] [(2, 2), (1, 2), (1, 2)] = Except.ok r ∧
      r.seq_length.length = 2 ∧
      (∀ x ∈ r.seq_length, x = r.outTime) ∧
      r.seq_length = List.replicate 2 r.outTime :=
  conv_layers_seq_length_constant ⟨2, 8, 80, 1⟩ [32, 32, 96]
    [(11, 41), (11, 21), (11, 21)] [(2, 2), (1, 2), (1, 2)]
    ⟨rfl, rfl⟩ (by decide)

/-- C2: the instrumented optimizer step returns exactly the value of the
undecorated `_apply_dense`; the moment-estimate and learning-rate
instrumentation (the returned log list) never enters the update. -/
theorem adamLogger_preserves_update (sqrt : ℚ → ℚ)
    (baseApplyDense : AdamSlots → ℚ → ℚ → ℚ)
    (st : AdamSlots) (grad var : ℚ) :
    (adamLoggerApplyDense sqrt baseApplyDense st grad var).1 =
      baseApplyDense st grad var := rfl

/-- C3 counterexample: the all-empty configuration triple has equal-length
sequences, yet `conv_layers` does not succeed: the loop builds nothing and
`10 * filters[-1]` in the reshape raises `IndexError` on the empty tuple. -/
theorem conv_layers_empty_config_fails :
    ([] : List Nat).length = ([] : List (Nat × Nat)).length ∧
    ([] : List (Nat × Nat)).length = ([] : List (Nat × Nat)).length ∧
    conv_layers ⟨2, 8, 80, 1⟩ [] [] [] = Except.error emptyTupleMsg :=
  ⟨rfl, rfl, rfl⟩

/-- C3 (amended): construction succeeds exactly when the three
configuration sequences have equal length and are nonempty; the
length-mismatch `ValueError` is raised exactly on unequal lengths, as the
first statement of the function, before any layer is built. -/
theorem conv_layers_config_check (s : Shape4) (filters : List Nat)
    (ks strides : List (Nat × Nat)) :
    ((∃ r, conv_layers s filters ks strides = Except.ok r) ↔
      (filters.length = ks.length ∧ ks.length = strides.length ∧ filters ≠ [])) ∧
    (conv_layers s filters ks strides = Except.error convMismatchMsg ↔
      ¬(filters.length = ks.length ∧ ks.length = strides.length)) := by
  by_cases hc : filters.length = ks.length ∧ ks.length = strides.length
  · cases hfl : filters.getLast? with
    | none =>
      have hnil : filters = [] := List.getLast?_eq_none_iff.mp hfl
      have herr : conv_layers s filters ks strides = Except.error emptyTupleMsg := by
        simp only [conv_layers, if_pos hc, hfl]
      constructor
      · constructor
        · rintro ⟨r, hr⟩
          rw [herr] at hr
          exact absurd hr (by simp)
        · rintro ⟨-, -, hne⟩
          exact absurd hnil hne
      · constructor
        · intro hr
          rw [herr] at hr
          have : emptyTupleMsg = convMismatchMsg := by injection hr
          exact absurd this (by decide)
        · intro hn
          exact absurd hc hn
    | some f =>
      have hne : filters ≠ [] := by
        intro hnil
        rw [hnil] at hfl
        exact absurd hfl (by simp)
      have hok := conv_layers_eq_ok s filters ks strides f hc hfl
      constructor
      · exact ⟨fun _ => ⟨hc.1, hc.2, hne⟩, fun _ => ⟨_, hok⟩⟩
      · constructor
        · intro hr
          rw [hok] at hr
          exact absurd hr (by simp)
        · intro hn
          exact absurd hc hn
  · have herr : conv_layers s filters ks strides = Except.error convMismatchMsg := by
      simp only [conv_layers, if_neg hc]
    constructor
    · constructor
      · rintro ⟨r, hr⟩
        rw [herr] at hr
        exact absurd hr (by simp)
      · rintro ⟨h1, h2, -⟩
        exact absurd ⟨h1, h2⟩ hc
    · exact ⟨fun _ => hc, fun _ => herr⟩

/-- C4 counterexample: with the default configuration and an input of shape
`[1, 4, 40, 1]`, the frequency axis remaining after the convolution stack
has size 5 and the final filter count is 96, yet the reshaped feature
axis is the hard-coded `10 * filters[-1] = 960`, not
`remaining frequency * final filters = 480`. -/
theorem conv_layers_feature_width_counterexample :
    convStackShape ⟨1, 4, 40, 1⟩ [32, 32, 96] [(2, 2), (1, 2), (1, 2)] =
      ⟨1, 2, 5, 96⟩ ∧
    conv_layers ⟨1, 4, 40, 1⟩ [32, 32, 96]
        [(11, 41), (11, 21), (11, 21)] [(2, 2), (1, 2), (1, 2)] =
      Except.ok ⟨1, 1, 960, [1]⟩ ∧
    (5 * 96 : Nat) ≠ 960 :=
  ⟨by decide, rfl, by decide⟩

/-- C4 (amended): for every input shape and every valid configuration, the
final axis of the reshaped output equals `10 * filters[-1]` — the `10` is
hard-coded from the default 80-frequency pipeline, independent of the
frequency size actually remaining.  In particular the default
configuration gives feature width `10 * 96`. -/
theorem conv_layers_feature_width (s : Shape4) (filters : List Nat)
    (ks strides : List (Nat × Nat)) (f : Nat)
    (hlen : filters.length = ks.length ∧ ks.length = strides.length)
    (hf : filters.getLast? = some f) :
    ∃ r, conv_layers s filters ks strides = Except.ok r ∧ r.outFeat = 10 * f :=
  ⟨_, conv_layers_eq_ok s filters ks strides f hlen hf, rfl⟩

/-- C4 witness: the default configuration on input `[1, 4, 40, 1]` yields
feature width `10 * 96 = 960`. -/
theorem conv_layers_feature_width_witness :
    ∃ r, conv_layers ⟨1, 4, 40, 1⟩ [32, 32, 96]
        [(11, 41), (11, 21), (11, 21)] [(2, 2), (1, 2), (1, 2)] = Except.ok r ∧
      r.outFeat = 10 * 96 :=
  conv_layers_feature_width ⟨1, 4, 40, 1⟩ [32, 32, 96]
    [(11, 41), (11, 21), (11, 21)] [(2, 2), (1, 2), (1, 2)] 96 ⟨rfl, rfl⟩ rfl

/-- Every cell produced by `bidirectional_cells` carries the clamped
keep-probability on both the input and the output side. -/
theorem bidirectional_cells_mem_keep_prob (random_seed num_units num_layers : Nat)
    (dropout : ℚ) (c : DropoutWrapper)
    (hc : c ∈ (bidirectional_cells random_seed num_units num_layers dropout).1 ∨
      c ∈ (bidirectional_cells random_seed num_units num_layers dropout).2) :
    c.input_keep_prob = min 1 (max 0 (1 - dropout)) ∧
    c.output_keep_prob = min 1 (max 0 (1 - dropout)) := by
  have hcell : c = create_cell random_seed num_units (min 1 (max 0 (1 - dropout))) := by
    rcases hc with hm | hm <;>
    · simp only [bidirectional_cells, List.mem_map] at hm
      exact hm.choose_spec.2.symm
  rw [hcell]
  exact ⟨rfl, rfl⟩

/-- C5: every forward and backward cell is dropout-wrapped with input and
output keep-probability `clamp(1 - dropout, 0, 1)`; in particular
`dropout = 0` gives keep-probability `1` and `dropout = 1` gives
keep-probability `0`. -/
theorem bidirectional_cells_keep_prob (random_seed num_units num_layers : Nat)
    (dropout : ℚ) (c : DropoutWrapper)
    (hc : c ∈ (bidirectional_cells random_seed num_units num_layers dropout).1 ∨
      c ∈ (bidirectional_cells random_seed num_units num_layers dropout).2) :
    c.input_keep_prob = min 1 (max 0 (1 - dropout)) ∧
    c.output_keep_prob = min 1 (max 0 (1 - dropout)) ∧
    min 1 (max 0 (1 - (0 : ℚ))) = 1 ∧
    min 1 (max 0 (1 - (1 : ℚ))) = 0 := by
  obtain ⟨h1, h2⟩ :=
    bidirectional_cells_mem_keep_prob random_seed num_units num_layers dropout c hc
  refine ⟨h1, h2, by norm_num, by norm_num⟩

/-- C5 witness: a single-layer stack with `dropout = 1/2` contains the cell
with keep-probability `1/2` on both sides. -/
theorem bidirectional_cells_keep_prob_witness :
    ((⟨⟨4⟩, 1 / 2, 1 / 2, 0⟩ : DropoutWrapper) ∈
        (bidirectional_cells 0 4 1 (1 / 2)).1 ∨
      (⟨⟨4⟩, 1 / 2, 1 / 2, 0⟩ : DropoutWrapper) ∈
        (bidirectional_cells 0 4 1 (1 / 2)).2) ∧
    ((⟨⟨4⟩, 1 / 2, 1 / 2, 0⟩ : DropoutWrapper).input_keep_prob =
        min 1 (max 0 (1 - (1 / 2 : ℚ))) ∧
      (⟨⟨4⟩, 1 / 2, 1 / 2, 0⟩ : DropoutWrapper).output_keep_prob =
        min 1 (max 0 (1 - (1 / 2 : ℚ))) ∧
      min 1 (max 0 (1 - (0 : ℚ))) = 1 ∧
      min 1 (max 0 (1 - (1 : ℚ))) = 0) :=
  have hm : (⟨⟨4⟩, 1 / 2, 1 / 2, 0⟩ : DropoutWrapper) ∈
      (bidirectional_cells 0 4 1 (1 / 2)).1 ∨
    (⟨⟨4⟩, 1 / 2, 1 / 2, 0⟩ : DropoutWrapper) ∈
      (bidirectional_cells 0 4 1 (1 / 2)).2 :=
    Or.inl (by norm_num [bidirectional_cells, create_cell, List.range_succ])
  ⟨hm, bidirectional_cells_keep_prob 0 4 1 (1 / 2) ⟨⟨4⟩, 1 / 2, 1 / 2, 0⟩ hm⟩

/-- C10: calling `bidirectional_cells` without a dropout argument uses the
default `dropout = 1.0`, so every forward and backward cell is wrapped
with input and output keep-probability `0` — the default drops
everything. -/
theorem bidirectional_cells_default_drops_all (random_seed num_units num_layers : Nat)
    (c : DropoutWrapper)
    (hc : c ∈ (bidirectional_cells random_seed num_units num_layers).1 ∨
      c ∈ (bidirectional_cells random_seed num_units num_layers).2) :
    c.input_keep_prob = 0 ∧ c.output_keep_prob = 0 := by
  obtain ⟨h1, h2⟩ := bidirectional_cells_mem_keep_prob random_seed num_units num_layers 1 c hc
  norm_num at h1 h2
  exact ⟨h1, h2⟩

/-- C10 witness: the default-call single-layer stack contains the cell with
both keep-probabilities `0`. -/
theorem bidirectional_cells_default_drops_all_witness :
    ((⟨⟨4⟩, 0, 0, 0⟩ : DropoutWrapper) ∈ (bidirectional_cells 0 4 1).1 ∨
      (⟨⟨4⟩, 0, 0, 0⟩ : DropoutWrapper) ∈ (bidirectional_cells 0 4 1).2) ∧
    ((⟨⟨4⟩, 0, 0, 0⟩ : DropoutWrapper).input_keep_prob = 0 ∧
      (⟨⟨4⟩, 0, 0, 0⟩ : DropoutWrapper).output_keep_prob = 0) :=
  have hm : (⟨⟨4⟩, 0, 0, 0⟩ : DropoutWrapper) ∈ (bidirectional_cells 0 4 1).1 ∨
      (⟨⟨4⟩, 0, 0, 0⟩ : DropoutWrapper) ∈ (bidirectional_cells 0 4 1).2 :=
    Or.inl (by norm_num [bidirectional_cells, create_cell, List.range_succ])
  ⟨hm, bidirectional_cells_default_drops_all 0 4 1 ⟨⟨4⟩, 0, 0, 0⟩ hm⟩

/-- C7: with a non-null weight-decay coefficient, exactly the term
`weight_decay * (sum of squared variable entries) / 2` is appended to the
`'losses'` collection; with `None` the collection is unchanged; in both
cases the created variable is returned as is. -/
theorem variable_with_weight_decay_spec (losses var : List ℚ) (wd : ℚ) :
    variable_with_weight_decay losses var (some wd) =
      (var, losses ++ [wd * ((var.map fun x => x * x).sum / 2)]) ∧
    variable_with_weight_decay losses var none = (var, losses) := by
  refine ⟨?_, rfl⟩
  simp [variable_with_weight_decay, l2_loss, mul_comm]

end TfContrib

namespace Storage

/-- C6 counterexample: on a repository with no tags, `git_latest_tag`
raises `IndexError` (from `tags[-1]` on the empty list) instead of
returning a sentinel string. -/
theorem git_latest_tag_no_tags_raises :
    git_latest_tag [] = Except.error emptyListMsg := rfl

/-- C6 (amended): `git_branch` degrades to the sentinel `'DETACHED HEAD'`
on a detached HEAD (where `repo.active_branch` raises `TypeError`) and
returns the branch name otherwise; `git_latest_tag`, however, raises
`IndexError` on a repository with no tags, and returns the name of the
newest tag otherwise. -/
theorem git_provenance_absence_behaviour (b : String) :
    git_branch (some b) = b ∧
    git_branch none = "DETACHED HEAD" ∧
    git_latest_tag [] = Except.error emptyListMsg ∧
    git_latest_tag [("v1", 5), ("v3", 9), ("v2", 7)] = Except.ok "v3" :=
  ⟨rfl, rfl, rfl, rfl⟩

/-- C8: when the file exists and every removal attempt fails, the retry
loop makes exactly five attempts separated by four one-second sleeps and
then surfaces `RuntimeError(path)` chained to the underlying exception;
a directory deletion failure propagates from the single `rmtree` call
with no retry and no sleep. -/
theorem delete_retry_behaviour (path e e2 : String) (fails : Nat → Option String)
    (h : ∀ i, i < 5 → fails i = some e) :
    delete_file_if_exists true true path fails =
      ([Ev.attempt 0, Ev.warn 0, Ev.sleep 1, Ev.attempt 1, Ev.warn 1, Ev.sleep 1,
        Ev.attempt 2, Ev.warn 2, Ev.sleep 1, Ev.attempt 3, Ev.warn 3, Ev.sleep 1,
        Ev.attempt 4, Ev.warn 4], Except.error (path, e)) ∧
    delete_directory_if_exists true true (Except.error e2) =
      ([Ev.attempt 0], Except.error e2) := by
  have h0 := h 0 (by omega)
  have h1 := h 1 (by omega)
  have h2 := h 2 (by omega)
  have h3 := h 3 (by omega)
  have h4 := h 4 (by omega)
  have hr : List.range 5 = [0, 1, 2, 3, 4] := by decide
  constructor
  · simp [delete_file_if_exists, hr, removeRetry, h0, h1, h2, h3, h4]
  · rfl

/-- C8 witness: an always-failing `os.remove` on path `f`. -/
theorem delete_retry_behaviour_witness :
    (∀ i, i < 5 → (fun _ => some "OSError") i = some "OSError") ∧
    (delete_file_if_exists true true "f" (fun _ => some "OSError") =
      ([Ev.attempt 0, Ev.warn 0, Ev.sleep 1, Ev.attempt 1, Ev.warn 1, Ev.sleep 1,
        Ev.attempt 2, Ev.warn 2, Ev.sleep 1, Ev.attempt 3, Ev.warn 3, Ev.sleep 1,
        Ev.attempt 4, Ev.warn 4], Except.error ("f", "OSError")) ∧
    delete_directory_if_exists true true (Except.error "x") =
      ([Ev.attempt 0], Except.error "x")) :=
  ⟨fun _ _ => rfl,
    delete_retry_behaviour "f" "OSError" "x" (fun _ => some "OSError")
      (fun _ _ => rfl)⟩

/-- C9: on a path that does not exist, `delete_file_if_exists` performs no
removal attempt, raises nothing, and produces no effect at all — the call
is a no-op, hence idempotent. -/
theorem delete_file_if_exists_missing_noop (isFile : Bool) (path : String)
    (fails : Nat → Option String) :
    delete_file_if_exists false isFile path fails = ([], Except.ok ()) := by
  simp [delete_file_if_exists]

end Storage
